import Mathlib

/-!
Verification development for the api-server repository.

This file gives a shallow embedding of the trace-upload code path of
`internal/handler/course.go` (the `CourseHandler` methods
`authenticateRequest`, `HandleTraceUpload`, `uploadToGCS`, and the helper
`sanitizeFilename`), together with the data the handler touches.  External
collaborators (the `model` package's database accessors, the GCS client and
the Kafka producer) are modelled as injected functions in an `Env` record,
exactly at the interface the handler consumes them through.  Machine
integers of the Go code (`int` fields formatted with `%d`) are modelled as
`Int`; no arithmetic in the handler can overflow (only formatting happens).
-/

set_option maxRecDepth 4096

deriving instance DecidableEq for Except

/-- A parsed UUID, as the 16 bytes `github.com/google/uuid` produces. -/
abbrev UUIDBytes := List Nat

/-- Hexadecimal value of one character, as `xtob` in `github.com/google/uuid`. -/
def hexVal (c : Char) : Option Nat :=
  if '0' ≤ c ∧ c ≤ '9' then some (c.toNat - '0'.toNat)
  else if 'a' ≤ c ∧ c ≤ 'f' then some (c.toNat - 'a'.toNat + 10)
  else if 'A' ≤ c ∧ c ≤ 'F' then some (c.toNat - 'A'.toNat + 10)
  else none

/-- Two hex characters to one byte (`xtob` of `github.com/google/uuid`). -/
def xtob (c1 c2 : Char) : Option Nat :=
  match hexVal c1, hexVal c2 with
  | some h, some l => some (h * 16 + l)
  | _, _ => none

/-- Byte starting positions of the hyphenated UUID text form
`xxxxxxxx-xxxx-xxxx-xxxx-xxxxxxxxxxxx`. -/
def uuidHexPositions : List Nat := [0, 2, 4, 6, 9, 11, 14, 16, 19, 21, 24, 26, 28, 30, 32, 34]

/-- Parse the 36-character hyphenated form, as the main branch of
`uuid.Parse`: hyphens at offsets 8, 13, 18 and 23, hex bytes elsewhere. -/
def parseHyphenated (l : List Char) : Option UUIDBytes :=
  if l.length = 36 ∧ l.get? 8 = some '-' ∧ l.get? 13 = some '-' ∧
      l.get? 18 = some '-' ∧ l.get? 23 = some '-' then
    uuidHexPositions.mapM (fun i =>
      match l.get? i, l.get? (i + 1) with
      | some c1, some c2 => xtob c1 c2
      | _, _ => none)
  else none

/-- Parse the 32-character plain-hex form of `uuid.Parse`. -/
def parse32 (l : List Char) : Option UUIDBytes :=
  if l.length = 32 then
    (List.range 16).mapM (fun i =>
      match l.get? (2 * i), l.get? (2 * i + 1) with
      | some c1, some c2 => xtob c1 c2
      | _, _ => none)
  else none

/-- `uuid.Parse` of `github.com/google/uuid`, by input length: the canonical
36-character form, the `urn:uuid:`-prefixed form (prefix compared
case-insensitively), the brace-wrapped form (`uuid.Parse` strips only the
first character and never validates the closing brace), and the plain
32-hex form. -/
def parseUUID (s : String) : Option UUIDBytes :=
  let l := s.data
  if l.length = 36 then parseHyphenated l
  else if l.length = 45 then
    if (l.take 9).map Char.toLower = "urn:uuid:".data then parseHyphenated (l.drop 9)
    else none
  else if l.length = 38 then parseHyphenated ((l.drop 1).take 36)
  else if l.length = 32 then parse32 l
  else none

/-- `model.User` as consumed by the handler: id and role. -/
structure User where
  id : UUIDBytes
  role : String
deriving DecidableEq, Repr

/-- `model.Course` as consumed by `HandleTraceUpload`: the fields read at
course.go:317-334 and 362-371. Go `int` fields are modelled as `Int`. -/
structure Course where
  instructorID : UUIDBytes
  name : String
  subjectCode : String
  courseID : Int
  semesterTerm : String
  semesterYear : Int
  creditHours : Int
deriving DecidableEq, Repr

/-- `model.Instructor` as consumed by the handler: the display name. -/
structure Instructor where
  name : String
deriving DecidableEq, Repr

/-- One row passed to `model.InsertTrace` (course.go:343 and 355), in
argument order: uploader id, instructor id, status, course id, optional
vector id, derived file name, bucket URL. -/
structure TraceRow where
  userID : UUIDBytes
  instructorID : UUIDBytes
  status : String
  courseID : UUIDBytes
  vectorID : Option String
  fileName : String
  bucketURL : String
deriving DecidableEq, Repr

/-- The object-store collaborator behind `uploadToGCS` (course.go:392-410):
whether `io.Copy` fails on a given payload, whether `Writer.Close` fails,
and the result of `object.Attrs` (error, or the canonical stored name) for
a given object key. -/
structure GCSBackend where
  copyFails : String → Bool
  closeErr : Bool
  attrs : String → Except Unit String

/-- The injected collaborators of the handler: `model.AuthenticateUser`
(error carries the message used in the 401 body), `model.GetCourseByID`,
`model.GetInstructorByID`, the configured bucket name, the GCS backend,
whether `model.InsertTrace` succeeds, whether `json.Marshal` of the Kafka
message succeeds, and whether `producer.SendMessage` succeeds.  The
`SendMessage` error is only logged (course.go:380-385), so `publishOK`
cannot influence the outcome; it is kept to state that independence. -/
structure Env where
  authUser : String → String → Except String User
  getCourseByID : UUIDBytes → Except Unit Course
  getInstructorByID : UUIDBytes → Except Unit Instructor
  bucketName : String
  gcs : GCSBackend
  insertTraceOK : Bool
  marshalOK : Bool
  publishOK : Bool

/-- One inbound `POST /v1/course/{course_id}/trace` request, at the
granularity the handler inspects it: basic-auth credentials, the raw
`course_id` path value, whether `ParseMultipartForm` succeeds, whether the
`file` form field is present, the `vector_id` form value (empty string when
absent, as `FormValue` reports it), and the file contents. -/
structure UploadRequest where
  basicAuth : Option (String × String)
  courseIDStr : String
  formParseOK : Bool
  fileOK : Bool
  vectorIDField : String
  filePayload : String

/-- An HTTP response: the status code actually committed by the first
`WriteHeader` call, and the sequence of JSON objects written to the body
(each object an association list of string fields). -/
structure Response where
  status : Nat
  body : List (List (String × String))
deriving DecidableEq, Repr

/-- Observable outcome of one handler run: the response, the trace rows
successfully persisted, how many object-store uploads were attempted, and
the messages handed to the Kafka producer (topic, decoded JSON object). -/
structure Outcome where
  response : Response
  inserted : List TraceRow
  uploadAttempts : Nat
  published : List (String × List (String × String))
deriving DecidableEq, Repr

/-- A single-object JSON error response, as
`json.NewEncoder(w).Encode(map[string]string{"error": msg})`. -/
def errResp (code : Nat) (msg : String) : Response :=
  ⟨code, [[("error", msg)]]⟩

/-- Result of `authenticateRequest` (course.go:55-75): an authenticated
admin user; or an authentication failure (no credentials, or
`AuthenticateUser` error) that the caller turns into a 401 via
`handleAuthError`; or a non-admin user, for which `authenticateRequest`
itself has already committed a 403. -/
inductive AuthResult where
  | ok (user : User)
  | unauthorized (msg : String)
  | forbidden
deriving DecidableEq, Repr

/-- `authenticateRequest` (course.go:55-75): requires basic-auth
credentials, authenticates them, and rejects any user whose role is not
"admin". -/
def authenticateRequest (creds : Option (String × String))
    (authUser : String → String → Except String User) : AuthResult :=
  match creds with
  | none => .unauthorized "authentication required"
  | some (u, p) =>
    match authUser u p with
    | .error e => .unauthorized e
    | .ok user => if user.role ≠ "admin" then .forbidden else .ok user

/-- ASCII-alphanumeric test; `[a-zA-Z0-9]` of the sanitization regex. -/
def isAlnumChar (c : Char) : Bool := c.isAlphanum

/-- The run-collapsing pass of `sanitizeFilename` (course.go:548-554):
`regexp.MustCompile("[^a-zA-Z0-9]+").ReplaceAllString(input, "_")`, i.e.
each maximal run of non-alphanumeric characters becomes one underscore.
The flag records whether the previous character was inside such a run. -/
def sanitizeCore : List Char → Bool → List Char
  | [], _ => []
  | c :: rest, inRun =>
    if isAlnumChar c then c :: sanitizeCore rest false
    else if inRun then sanitizeCore rest true
    else '_' :: sanitizeCore rest true

/-- Leading-underscore removal, half of `strings.Trim(cleaned, "_")`. -/
def trimLead (l : List Char) : List Char := l.dropWhile (fun c => c == '_')

/-- Trailing-underscore removal, the other half of `strings.Trim`. -/
def trimTrail (l : List Char) : List Char :=
  (l.reverse.dropWhile (fun c => c == '_')).reverse

/-- Both halves of `strings.Trim(cleaned, "_")`. -/
def trimUnderscores (l : List Char) : List Char := trimTrail (trimLead l)

/-- `sanitizeFilename` (course.go:548-554): replace every maximal run of
characters outside `[a-zA-Z0-9]` with one underscore, then strip leading
and trailing underscores. -/
def sanitizeFilename (s : String) : String :=
  String.mk (trimUnderscores (sanitizeCore s.data false))

/-- Decimal digits of a natural, most significant first; `fuel` bounds the
recursion and `fuel = n` always suffices since dividing by ten reaches zero
within `n` steps for every positive `n`. -/
def natDecGo : Nat → Nat → List Char → List Char
  | 0, _, acc => acc
  | fuel + 1, n, acc =>
    if n = 0 then acc else natDecGo fuel (n / 10) (Char.ofNat (48 + n % 10) :: acc)

/-- Decimal rendering of a natural number. -/
def natDec (n : Nat) : String := if n = 0 then "0" else String.mk (natDecGo n n [])

/-- Go's `%d` formatting of an `int`. -/
def intDec (i : Int) : String := if i < 0 then "-" ++ natDec i.natAbs else natDec i.natAbs

/-- The custom file name built at course.go:326-334:
`fmt.Sprintf("%s_%s_%s_%d_%s_%d.pdf", sanitizeFilename(course.Name),
sanitizeFilename(instructor.Name), course.SubjectCode, course.CourseID,
course.SemesterTerm, course.SemesterYear)`. -/
def deriveCustomName (course : Course) (instructor : Instructor) : String :=
  sanitizeFilename course.name ++ "_" ++ sanitizeFilename instructor.name ++ "_" ++
  course.subjectCode ++ "_" ++ intDec course.courseID ++ "_" ++
  course.semesterTerm ++ "_" ++ intDec course.semesterYear ++ ".pdf"

/-- ASCII lower-casing, modelling `strings.ToLower` (the two agree on every
string the handler produces here; all relevant data is ASCII). -/
def toLowerGo (s : String) : String := String.mk (s.data.map Char.toLower)

/-- The Kafka message built at course.go:363-371: every value lower-cased
except `bucket_path`, which is the bucket URL verbatim. -/
def traceMessage (instructor : Instructor) (course : Course) (bucketURL : String) :
    List (String × String) :=
  [("instructor_name", toLowerGo instructor.name),
   ("course_code", toLowerGo (course.subjectCode ++ " " ++ intDec course.courseID)),
   ("semester_term", toLowerGo course.semesterTerm),
   ("semester_year", toLowerGo (intDec course.semesterYear)),
   ("course_name", toLowerGo course.name),
   ("credit_hours", toLowerGo (intDec course.creditHours)),
   ("bucket_path", bucketURL)]

/-- `uploadToGCS` (course.go:392-410): stream the payload to the object
named by the derived filename; on success of copy, close and
attribute-read, return
`https://storage.googleapis.com/{bucket}/{attrs.Name}`. -/
def uploadToGCS (bucketName : String) (g : GCSBackend) (contents filename : String) :
    Except Unit String :=
  if g.copyFails contents then .error ()
  else if g.closeErr then .error ()
  else
    match g.attrs filename with
    | .error _ => .error ()
    | .ok n => .ok ("https://storage.googleapis.com/" ++ bucketName ++ "/" ++ n)

/-- `HandleTraceUpload` (course.go:265-390).  Order of steps as in the
source: authenticate (admin required by `authenticateRequest`; the
superfluous second `WriteHeader` in `handleAuthError` after the 403 is a
no-op in `net/http`, so 403 is the committed status), parse the course id,
parse the multipart form, require the `file` field, read `vector_id`
(empty string means nil), fetch course then instructor (500 on failure),
derive the filename, attempt the GCS upload; on upload failure insert a
"failed" row with empty bucket URL and answer 500; on upload success
insert an "uploaded" row, best-effort publish to topic "pdf-upload", and
answer 201. -/
def HandleTraceUpload (env : Env) (req : UploadRequest) : Outcome :=
  match authenticateRequest req.basicAuth env.authUser with
  | .unauthorized msg =>
    { response := errResp 401 msg, inserted := [], uploadAttempts := 0, published := [] }
  | .forbidden =>
    { response := ⟨403, [[("error", "Insufficient permissions")],
                         [("error", "insufficient permissions")]]⟩,
      inserted := [], uploadAttempts := 0, published := [] }
  | .ok user =>
    match parseUUID req.courseIDStr with
    | none =>
      { response := errResp 400 "Invalid course_id format",
        inserted := [], uploadAttempts := 0, published := [] }
    | some courseID =>
      if req.formParseOK then
        if req.fileOK then
          let vectorID : Option String :=
            if req.vectorIDField = "" then none else some req.vectorIDField
          match env.getCourseByID courseID with
          | .error _ =>
            { response := errResp 500 "Failed to fetch course details",
              inserted := [], uploadAttempts := 0, published := [] }
          | .ok course =>
            match env.getInstructorByID course.instructorID with
            | .error _ =>
              { response := errResp 500 "Failed to fetch instructor details",
                inserted := [], uploadAttempts := 0, published := [] }
            | .ok instructor =>
              let customName := deriveCustomName course instructor
              match uploadToGCS env.bucketName env.gcs req.filePayload customName with
              | .error _ =>
                if env.insertTraceOK then
                  { response := errResp 500 "Failed to upload file to GCS",
                    inserted := [⟨user.id, course.instructorID, "failed", courseID,
                                  vectorID, customName, ""⟩],
                    uploadAttempts := 1, published := [] }
                else
                  { response := errResp 500 "Failed to insert trace record",
                    inserted := [], uploadAttempts := 1, published := [] }
              | .ok bucketURL =>
                if env.insertTraceOK then
                  { response := ⟨201, [[("message", "File uploaded successfully"),
                                        ("bucket_url", bucketURL)]]⟩,
                    inserted := [⟨user.id, course.instructorID, "uploaded", courseID,
                                  vectorID, customName, bucketURL⟩],
                    uploadAttempts := 1,
                    published :=
                      if env.marshalOK then
                        [("pdf-upload", traceMessage instructor course bucketURL)]
                      else [] }
                else
                  { response := errResp 500 "Failed to insert trace record",
                    inserted := [], uploadAttempts := 1, published := [] }
        else
          { response := errResp 400 "File is required",
            inserted := [], uploadAttempts := 0, published := [] }
      else
        { response := errResp 400 "Failed to parse multipart form",
          inserted := [], uploadAttempts := 0, published := [] }

/-!
Specification-side definitions.  `sanitizeSpec` restates the spec's
sanitization rule ("replace every maximal run of characters outside the
ASCII alphanumeric set with a single underscore, then strip
leading/trailing underscores") in an independent form: the maximal
alphanumeric blocks of the input joined by single underscores, which is
what that rule produces once the end underscores are stripped.  The
equivalence with the source's `sanitizeFilename` is proved below.
-/

/-- The maximal runs of ASCII-alphanumeric characters of a string, in
order. -/
def alnumBlocks : List Char → List (List Char)
  | [] => []
  | c :: rest =>
    if isAlnumChar c then
      (c :: rest.takeWhile isAlnumChar) :: alnumBlocks (rest.dropWhile isAlnumChar)
    else alnumBlocks rest
termination_by l => l.length
decreasing_by
  all_goals simp_wf
  all_goals exact Nat.lt_succ_of_le (List.dropWhile_sublist _).length_le

/-- Join character blocks with single underscores between them. -/
def joinU : List (List Char) → List Char
  | [] => []
  | b :: bs =>
    match bs with
    | [] => b
    | _ :: _ => b ++ '_' :: joinU bs

/-- The spec's sanitization rule: maximal alphanumeric blocks joined by
single underscores (no leading or trailing underscore survives the final
strip). -/
def sanitizeSpec (s : String) : String := String.mk (joinU (alnumBlocks s.data))

/-- The character set `[A-Za-z0-9_.]` the spec allows in derived
filenames. -/
def allowedChar (c : Char) : Bool := c.isAlphanum || c == '_' || c == '.'

/-!
Concrete fixtures used by witnesses and counterexamples.
-/

/-- Sample course id: the bytes of `11111111-2222-3333-4444-555555555555`. -/
def uuid1 : UUIDBytes :=
  [17, 17, 17, 17, 34, 34, 51, 51, 68, 68, 85, 85, 85, 85, 85, 85]

/-- Sample uploading user's id. -/
def uid1 : UUIDBytes := [1, 2, 3, 4, 5, 6, 7, 8, 9, 10, 11, 12, 13, 14, 15, 16]

/-- Sample instructor id. -/
def iid1 : UUIDBytes := [9, 9, 9, 9, 9, 9, 9, 9, 9, 9, 9, 9, 9, 9, 9, 9]

/-- Sample admin user. -/
def userAdmin : User := ⟨uid1, "admin"⟩

/-- Sample authenticated non-admin user. -/
def userPlain : User := ⟨uid1, "student"⟩

/-- Sample course. -/
def courseOK : Course := ⟨iid1, "Cloud Computing", "CSYE", 6225, "Spring", 2025, 4⟩

/-- A course whose subject code contains a character outside
`[A-Za-z0-9_.]`; the handler inserts the subject code verbatim into the
derived filename. -/
def courseBad : Course := { courseOK with subjectCode := "C!" }

/-- Sample instructor. -/
def instructorOK : Instructor := ⟨"John Smith"⟩

/-- A storage backend for which every step succeeds and the attribute read
reports the object key itself as the stored name, as GCS does. -/
def gcsOK : GCSBackend := ⟨fun _ => false, false, fun n => .ok n⟩

/-- A storage backend whose streaming write always fails. -/
def gcsFailCopy : GCSBackend := ⟨fun _ => true, false, fun n => .ok n⟩

/-- Environment in which every collaborator behaves: credentials
`alice`/`pw` resolve to the admin user, `uuid1` resolves to `courseOK`,
its instructor id to `instructorOK`, the object store works, and the
trace insert succeeds. -/
def envOK : Env :=
  { authUser := fun u p =>
      if u = "alice" ∧ p = "pw" then .ok userAdmin else .error "invalid credentials"
    getCourseByID := fun cid => if cid = uuid1 then .ok courseOK else .error ()
    getInstructorByID := fun iid => if iid = iid1 then .ok instructorOK else .error ()
    bucketName := "trace-bucket"
    gcs := gcsOK
    insertTraceOK := true
    marshalOK := true
    publishOK := true }

/-- `envOK` with a failing storage backend. -/
def envGCSFail : Env := { envOK with gcs := gcsFailCopy }

/-- `envOK` with a course id that resolves to no course. -/
def envNoCourse : Env := { envOK with getCourseByID := fun _ => .error () }

/-- `envOK` with credentials resolving to a non-admin user. -/
def envNonAdmin : Env :=
  { envOK with authUser := fun u p =>
      if u = "alice" ∧ p = "pw" then .ok userPlain else .error "invalid credentials" }

/-- A well-formed upload request for `uuid1` with no `vector_id`. -/
def reqOK : UploadRequest :=
  { basicAuth := some ("alice", "pw")
    courseIDStr := "11111111-2222-3333-4444-555555555555"
    formParseOK := true
    fileOK := true
    vectorIDField := ""
    filePayload := "pdfbytes" }

/-- `reqOK` with a non-empty `vector_id` form value. -/
def reqVec : UploadRequest := { reqOK with vectorIDField := "vec-1" }

/-- The storage location `envOK` produces for `reqOK`. -/
def gcsURL : String :=
  "https://storage.googleapis.com/trace-bucket/Cloud_Computing_John_Smith_CSYE_6225_Spring_2025.pdf"

/-- The derived filename for `courseOK` and `instructorOK`. -/
def fileNameOK : String := "Cloud_Computing_John_Smith_CSYE_6225_Spring_2025.pdf"

/-- The trace row `envGCSFail` persists for `reqOK`. -/
def trRowFailed : TraceRow := ⟨uid1, iid1, "failed", uuid1, none, fileNameOK, ""⟩

/-- The trace row `envOK` persists for `reqOK`. -/
def trRowUploaded : TraceRow := ⟨uid1, iid1, "uploaded", uuid1, none, fileNameOK, gcsURL⟩

/-- `envOK` with a publisher that always errors. -/
def envPubFail : Env := { envOK with publishOK := false }

/-- `reqOK` with an unparseable course id. -/
def reqBadID : UploadRequest := { reqOK with courseIDStr := "not-a-uuid" }

/-!
Lemmas relating the source's sanitization to the spec's rule.
-/

/-- An alphanumeric character is not an underscore. -/
theorem alnum_ne_underscore (c : Char) (h : isAlnumChar c = true) : (c == '_') = false := by
  cases hb : c == '_' with
  | false => rfl
  | true =>
    have hc : c = '_' := eq_of_beq hb
    subst hc
    exact absurd h (by decide)

/-- Inside a non-alphanumeric run the collapser just skips up to the next
alphanumeric character. -/
theorem sanitizeCore_true_eq (l : List Char) :
    sanitizeCore l true = sanitizeCore (l.dropWhile (fun d => !isAlnumChar d)) false := by
  induction l with
  | nil => rfl
  | cons c rest ih =>
    by_cases h : isAlnumChar c = true
    · simp [sanitizeCore, List.dropWhile_cons, h]
    · simp [sanitizeCore, List.dropWhile_cons, h, ih]

/-- A fully alphanumeric block passes through the collapser unchanged. -/
theorem sanitizeCore_block (b : List Char) :
    ∀ rest, (∀ c ∈ b, isAlnumChar c = true) →
      sanitizeCore (b ++ rest) false = b ++ sanitizeCore rest false := by
  induction b with
  | nil => intro rest _; rfl
  | cons c b ih =>
    intro rest h
    have hc : isAlnumChar c = true := h c (List.mem_cons_self c b)
    have hrest : ∀ d ∈ b, isAlnumChar d = true := fun d hd => h d (List.mem_cons_of_mem c hd)
    simp [sanitizeCore, hc, ih rest hrest]

/-- Dropping a leading non-alphanumeric run does not change the blocks. -/
theorem alnumBlocks_dropWhile (l : List Char) :
    alnumBlocks (l.dropWhile (fun d => !isAlnumChar d)) = alnumBlocks l := by
  induction l with
  | nil => rfl
  | cons c rest ih =>
    by_cases h : isAlnumChar c = true
    · simp [List.dropWhile_cons, h]
    · simp [List.dropWhile_cons, h, alnumBlocks, ih]

/-- The head left by `dropWhile` fails the predicate. -/
theorem dropWhile_head_false {α : Type} (p : α → Bool) :
    ∀ (l : List α) (c : α) (cs : List α), l.dropWhile p = c :: cs → p c = false := by
  intro l
  induction l with
  | nil => intro c cs h; simp at h
  | cons a l ih =>
    intro c cs h
    rw [List.dropWhile_cons] at h
    by_cases ha : p a = true
    · rw [if_pos ha] at h
      exact ih c cs h
    · rw [if_neg ha] at h
      injection h with h1 h2
      subst h1
      simp only [Bool.not_eq_true] at ha
      exact ha

/-- `dropWhile` is the identity when no element satisfies the predicate. -/
theorem dropWhile_eq_self {α : Type} (p : α → Bool) (l : List α)
    (h : ∀ c ∈ l, p c = false) : l.dropWhile p = l := by
  cases l with
  | nil => rfl
  | cons a l =>
    have ha : p a = false := h a (List.mem_cons_self a l)
    rw [List.dropWhile_cons, if_neg (by simp [ha])]

/-- Trimming does nothing to a list without underscores. -/
theorem trim_of_no_underscore (l : List Char) (h : ∀ c ∈ l, (c == '_') = false) :
    trimUnderscores l = l := by
  unfold trimUnderscores trimTrail trimLead
  rw [dropWhile_eq_self _ l h]
  rw [dropWhile_eq_self _ l.reverse (fun c hc => h c (List.mem_reverse.mp hc))]
  exact List.reverse_reverse l

/-- Trimming an underscore-free list with one trailing underscore strips
exactly that underscore. -/
theorem trim_append_underscore (l : List Char) (h : ∀ c ∈ l, (c == '_') = false) :
    trimUnderscores (l ++ ['_']) = l := by
  cases l with
  | nil => rfl
  | cons a l =>
    have ha : (a == '_') = false := h a (List.mem_cons_self a l)
    have hmem : ∀ c ∈ l.reverse ++ [a], (c == '_') = false := by
      intro c hc
      rcases List.mem_append.mp hc with h1 | h1
      · exact h c (List.mem_cons_of_mem a (List.mem_reverse.mp h1))
      · rw [List.mem_singleton] at h1
        subst h1
        exact ha
    unfold trimUnderscores trimTrail trimLead
    rw [List.cons_append, List.dropWhile_cons, if_neg (by simp [ha])]
    rw [show (a :: (l ++ ['_'])).reverse = '_' :: (l.reverse ++ [a]) by simp]
    rw [List.dropWhile_cons, if_pos (by simp)]
    rw [dropWhile_eq_self _ _ hmem]
    simp

/-- Trailing-trim commutes with a prefix when the suffix keeps content. -/
theorem trimTrail_append (a w : List Char) (h : trimTrail w ≠ []) :
    trimTrail (a ++ w) = a ++ trimTrail w := by
  have hne : (w.reverse.dropWhile (fun c => c == '_')).isEmpty = false := by
    cases hE : w.reverse.dropWhile (fun c => c == '_') with
    | nil =>
      exfalso
      apply h
      unfold trimTrail
      rw [hE]
      rfl
    | cons x xs => rfl
  unfold trimTrail
  rw [List.reverse_append, List.dropWhile_append, hne]
  simp

/-- Joining a nonempty first block yields a nonempty list. -/
theorem joinU_ne_nil (b : List Char) (bs : List (List Char)) (hb : b ≠ []) :
    joinU (b :: bs) ≠ [] := by
  cases bs with
  | nil => simpa [joinU] using hb
  | cons x xs => simp [joinU]

/-- The main equivalence, by strong induction on the length: collapsing
runs and trimming end underscores equals joining the maximal alphanumeric
blocks with single underscores. -/
theorem trim_sanitize_aux : ∀ (n : Nat) (l : List Char), l.length ≤ n →
    trimUnderscores (sanitizeCore l false) = joinU (alnumBlocks l) := by
  intro n
  induction n with
  | zero =>
    intro l hl
    have h0 : l = [] := List.length_eq_zero.mp (Nat.le_zero.mp hl)
    subst h0
    rw [show alnumBlocks [] = [] by simp [alnumBlocks]]
    rfl
  | succ n ih =>
    intro l hl
    cases l with
    | nil =>
      rw [show alnumBlocks [] = [] by simp [alnumBlocks]]
      rfl
    | cons c rest =>
      have hrest : rest.length ≤ n := by
        simp only [List.length_cons] at hl
        omega
      by_cases hc : isAlnumChar c = true
      · have hball : ∀ d ∈ c :: rest.takeWhile isAlnumChar, isAlnumChar d = true := by
          intro d hd
          rcases List.mem_cons.mp hd with h1 | h1
          · subst h1; exact hc
          · exact List.mem_takeWhile_imp h1
        have hbu : ∀ d ∈ c :: rest.takeWhile isAlnumChar, (d == '_') = false :=
          fun d hd => alnum_ne_underscore d (hball d hd)
        have hdecomp : c :: rest =
            (c :: rest.takeWhile isAlnumChar) ++ rest.dropWhile isAlnumChar := by
          simp [List.takeWhile_append_dropWhile]
        have hsan : sanitizeCore (c :: rest) false =
            (c :: rest.takeWhile isAlnumChar) ++
              sanitizeCore (rest.dropWhile isAlnumChar) false := by
          rw [hdecomp]
          exact sanitizeCore_block _ _ hball
        have hblocks : alnumBlocks (c :: rest) =
            (c :: rest.takeWhile isAlnumChar) :: alnumBlocks (rest.dropWhile isAlnumChar) := by
          simp [alnumBlocks, hc]
        rw [hsan, hblocks]
        cases hr : rest.dropWhile isAlnumChar with
        | nil =>
          have hA : alnumBlocks ([] : List Char) = [] := by simp [alnumBlocks]
          rw [hA, show sanitizeCore ([] : List Char) false = [] from rfl, List.append_nil,
            show joinU [c :: rest.takeWhile isAlnumChar] = c :: rest.takeWhile isAlnumChar from rfl]
          exact trim_of_no_underscore _ hbu
        | cons d r2 =>
          have hdna : isAlnumChar d = false := dropWhile_head_false isAlnumChar rest d r2 hr
          have hsanr : sanitizeCore (d :: r2) false =
              '_' :: sanitizeCore (r2.dropWhile (fun e => !isAlnumChar e)) false := by
            rw [show sanitizeCore (d :: r2) false = '_' :: sanitizeCore r2 true by
                simp [sanitizeCore, hdna],
              sanitizeCore_true_eq r2]
          have hblocksr : alnumBlocks (d :: r2) =
              alnumBlocks (r2.dropWhile (fun e => !isAlnumChar e)) := by
            rw [alnumBlocks_dropWhile r2]
            simp [alnumBlocks, hdna]
          have hzlen : (r2.dropWhile (fun e => !isAlnumChar e)).length ≤ n := by
            have h1 : (r2.dropWhile (fun e => !isAlnumChar e)).length ≤ r2.length :=
              (List.dropWhile_sublist _).length_le
            have h2 : (d :: r2).length ≤ rest.length := by
              rw [← hr]
              exact (List.dropWhile_sublist _).length_le
            simp only [List.length_cons] at h2
            omega
          rw [hsanr, hblocksr]
          cases hzc : r2.dropWhile (fun e => !isAlnumChar e) with
          | nil =>
            have hA : alnumBlocks ([] : List Char) = [] := by simp [alnumBlocks]
            rw [hA, show sanitizeCore ([] : List Char) false = [] from rfl,
              show joinU [c :: rest.takeWhile isAlnumChar] =
                c :: rest.takeWhile isAlnumChar from rfl]
            exact trim_append_underscore _ hbu
          | cons e z2 =>
            have hpe : isAlnumChar e = true := by
              have h1 := dropWhile_head_false (fun x => !isAlnumChar x) r2 e z2 hzc
              simpa using h1
            rw [hzc] at hzlen
            have ihz := ih (e :: z2) hzlen
            have hsz : sanitizeCore (e :: z2) false = e :: sanitizeCore z2 false := by
              simp [sanitizeCore, hpe]
            have hbz : alnumBlocks (e :: z2) =
                (e :: z2.takeWhile isAlnumChar) :: alnumBlocks (z2.dropWhile isAlnumChar) := by
              simp [alnumBlocks, hpe]
            have hLw : trimLead (sanitizeCore (e :: z2) false) =
                sanitizeCore (e :: z2) false := by
              rw [hsz]
              unfold trimLead
              rw [List.dropWhile_cons, if_neg (by simp [alnum_ne_underscore e hpe])]
            have hTw : trimTrail (sanitizeCore (e :: z2) false) =
                joinU (alnumBlocks (e :: z2)) := by
              have h1 := ihz
              unfold trimUnderscores at h1
              rw [hLw] at h1
              exact h1
            have hTne : trimTrail (sanitizeCore (e :: z2) false) ≠ [] := by
              rw [hTw, hbz]
              exact joinU_ne_nil _ _ (by simp)
            calc trimUnderscores ((c :: rest.takeWhile isAlnumChar) ++
                    '_' :: sanitizeCore (e :: z2) false)
                = trimTrail ((c :: rest.takeWhile isAlnumChar) ++
                    '_' :: sanitizeCore (e :: z2) false) := by
                  unfold trimUnderscores trimLead
                  rw [List.cons_append, List.dropWhile_cons,
                    if_neg (by simp [alnum_ne_underscore c hc])]
              _ = trimTrail (((c :: rest.takeWhile isAlnumChar) ++ ['_']) ++
                    sanitizeCore (e :: z2) false) := by
                  rw [show (c :: rest.takeWhile isAlnumChar) ++
                      '_' :: sanitizeCore (e :: z2) false =
                      ((c :: rest.takeWhile isAlnumChar) ++ ['_']) ++
                        sanitizeCore (e :: z2) false by simp]
              _ = ((c :: rest.takeWhile isAlnumChar) ++ ['_']) ++
                    trimTrail (sanitizeCore (e :: z2) false) := trimTrail_append _ _ hTne
              _ = (c :: rest.takeWhile isAlnumChar) ++
                    '_' :: joinU (alnumBlocks (e :: z2)) := by
                  rw [hTw]
                  simp
              _ = joinU ((c :: rest.takeWhile isAlnumChar) :: alnumBlocks (e :: z2)) := by
                  rw [hbz]
                  rfl
      · have hcf : isAlnumChar c = false := by simpa using hc
        have h1 : sanitizeCore (c :: rest) false =
            '_' :: sanitizeCore (rest.dropWhile (fun d => !isAlnumChar d)) false := by
          rw [show sanitizeCore (c :: rest) false = '_' :: sanitizeCore rest true by
              simp [sanitizeCore, hcf],
            sanitizeCore_true_eq rest]
        have h2 : alnumBlocks (c :: rest) =
            alnumBlocks (rest.dropWhile (fun d => !isAlnumChar d)) := by
          rw [alnumBlocks_dropWhile rest]
          simp [alnumBlocks, hcf]
        have hlen2 : (rest.dropWhile (fun d => !isAlnumChar d)).length ≤ n := by
          have h3 : (rest.dropWhile (fun d => !isAlnumChar d)).length ≤ rest.length :=
            (List.dropWhile_sublist _).length_le
          omega
        rw [h1, h2]
        have h3 : trimUnderscores
            ('_' :: sanitizeCore (rest.dropWhile (fun d => !isAlnumChar d)) false) =
            trimUnderscores (sanitizeCore (rest.dropWhile (fun d => !isAlnumChar d)) false) := by
          unfold trimUnderscores trimLead
          rw [List.dropWhile_cons, if_pos (by simp)]
        rw [h3]
        exact ih _ hlen2

/-- The source's `sanitizeFilename` computes exactly the spec's rule. -/
theorem sanitizeFilename_eq_spec (s : String) : sanitizeFilename s = sanitizeSpec s := by
  unfold sanitizeFilename sanitizeSpec
  exact congrArg String.mk (trim_sanitize_aux s.data.length s.data (Nat.le_refl _))

/-- A string without alphanumeric characters has no blocks. -/
theorem alnumBlocks_nil (l : List Char) (h : ∀ c ∈ l, isAlnumChar c = false) :
    alnumBlocks l = [] := by
  induction l with
  | nil => simp [alnumBlocks]
  | cons c rest ih =>
    have hc := h c (List.mem_cons_self c rest)
    simp [alnumBlocks, hc]
    exact ih (fun d hd => h d (List.mem_cons_of_mem c hd))

/-!
Character-set lemmas for the derived filename.
-/

/-- Every character `natDecGo` prepends is a decimal digit. -/
theorem digit_char_isDigit (k : Nat) : (Char.ofNat (48 + k % 10)).isDigit = true := by
  have h : k % 10 < 10 := Nat.mod_lt _ (by decide)
  set r := k % 10 with hr
  interval_cases r <;> decide

/-- Characters produced by `natDecGo` are digits or come from the seed. -/
theorem natDecGo_mem : ∀ (fuel n : Nat) (acc : List Char) (c : Char),
    c ∈ natDecGo fuel n acc → c.isDigit = true ∨ c ∈ acc := by
  intro fuel
  induction fuel with
  | zero => intro n acc c hc; right; exact hc
  | succ fuel ih =>
    intro n acc c hc
    simp only [natDecGo] at hc
    by_cases hn : n = 0
    · rw [if_pos hn] at hc
      right
      exact hc
    · rw [if_neg hn] at hc
      rcases ih (n / 10) (Char.ofNat (48 + n % 10) :: acc) c hc with h | h
      · left; exact h
      · rcases List.mem_cons.mp h with h1 | h1
        · rw [h1]; left; exact digit_char_isDigit n
        · right; exact h1

/-- Every character of `natDec n` is a decimal digit. -/
theorem natDec_mem (n : Nat) (c : Char) (hc : c ∈ (natDec n).data) : c.isDigit = true := by
  unfold natDec at hc
  by_cases hn : n = 0
  · rw [if_pos hn] at hc
    rw [show ("0" : String).data = ['0'] from rfl, List.mem_singleton] at hc
    rw [hc]
    decide
  · rw [if_neg hn] at hc
    rcases natDecGo_mem n n [] c hc with h | h
    · exact h
    · simp at h

/-- For a nonnegative integer, `intDec` renders only decimal digits. -/
theorem intDec_mem (i : Int) (hi : 0 ≤ i) (c : Char) (hc : c ∈ (intDec i).data) :
    c.isDigit = true := by
  unfold intDec at hc
  rw [if_neg (by omega)] at hc
  exact natDec_mem i.natAbs c hc

/-- Every character the sanitizing collapser emits is alphanumeric or an
underscore. -/
theorem sanitizeCore_mem (l : List Char) :
    ∀ b c, c ∈ sanitizeCore l b → isAlnumChar c = true ∨ c = '_' := by
  induction l with
  | nil => intro b c hc; simp [sanitizeCore] at hc
  | cons a l ih =>
    intro b c hc
    by_cases ha : isAlnumChar a = true
    · rw [show sanitizeCore (a :: l) b = a :: sanitizeCore l false by
          simp [sanitizeCore, ha]] at hc
      rcases List.mem_cons.mp hc with h1 | h1
      · subst h1; left; exact ha
      · exact ih false c h1
    · cases b with
      | true =>
        rw [show sanitizeCore (a :: l) true = sanitizeCore l true by
            simp [sanitizeCore, ha]] at hc
        exact ih true c hc
      | false =>
        rw [show sanitizeCore (a :: l) false = '_' :: sanitizeCore l true by
            simp [sanitizeCore, ha]] at hc
        rcases List.mem_cons.mp hc with h1 | h1
        · subst h1; right; rfl
        · exact ih true c h1

/-- Trimming only removes characters. -/
theorem trim_subset (l : List Char) : ∀ c, c ∈ trimUnderscores l → c ∈ l := by
  intro c hc
  unfold trimUnderscores trimTrail trimLead at hc
  rw [List.mem_reverse] at hc
  have h1 : c ∈ (l.dropWhile (fun d => d == '_')).reverse :=
    (List.dropWhile_sublist _).subset hc
  rw [List.mem_reverse] at h1
  exact (List.dropWhile_sublist _).subset h1

/-- Every character of a sanitized string is alphanumeric or an
underscore, hence in the allowed set. -/
theorem sanitizeFilename_mem (s : String) (c : Char)
    (hc : c ∈ (sanitizeFilename s).data) : allowedChar c = true := by
  unfold sanitizeFilename at hc
  rw [show (String.mk (trimUnderscores (sanitizeCore s.data false))).data =
      trimUnderscores (sanitizeCore s.data false) from rfl] at hc
  rcases sanitizeCore_mem s.data false c (trim_subset _ c hc) with h | h
  · simp [allowedChar, isAlnumChar] at h ⊢
    simp [h]
  · rw [h]
    decide

/-- The GCS location string is never empty. -/
theorem gcs_url_ne_empty (b n : String) :
    "https://storage.googleapis.com/" ++ b ++ "/" ++ n ≠ "" := by
  intro h
  have hlen := congrArg String.length h
  rw [String.length_append, String.length_append, String.length_append] at hlen
  rw [show ("https://storage.googleapis.com/" : String).length = 31 from rfl] at hlen
  rw [show ("/" : String).length = 1 from rfl] at hlen
  rw [show ("" : String).length = 0 from rfl] at hlen
  omega

/-!
Run lemmas: the exact outcome of `HandleTraceUpload` on each branch.
-/

/-- Successful run: everything resolves, upload and insert succeed. -/
theorem handle_success_eq (env : Env) (req : UploadRequest) (user : User)
    (cid : UUIDBytes) (course : Course) (instructor : Instructor) (url : String)
    (h1 : authenticateRequest req.basicAuth env.authUser = .ok user)
    (h2 : parseUUID req.courseIDStr = some cid)
    (h3 : req.formParseOK = true)
    (h4 : req.fileOK = true)
    (h5 : env.getCourseByID cid = .ok course)
    (h6 : env.getInstructorByID course.instructorID = .ok instructor)
    (h7 : uploadToGCS env.bucketName env.gcs req.filePayload
        (deriveCustomName course instructor) = .ok url)
    (h8 : env.insertTraceOK = true) :
    HandleTraceUpload env req =
      { response := ⟨201, [[("message", "File uploaded successfully"), ("bucket_url", url)]]⟩,
        inserted := [⟨user.id, course.instructorID, "uploaded", cid,
          (if req.vectorIDField = "" then none else some req.vectorIDField),
          deriveCustomName course instructor, url⟩],
        uploadAttempts := 1,
        published :=
          if env.marshalOK then [("pdf-upload", traceMessage instructor course url)]
          else [] } := by
  simp only [HandleTraceUpload, h1, h2, h3, h4, h5, h6, h7, h8, if_true]

/-- Failed-upload run: the GCS step errors, the insert succeeds. -/
theorem handle_gcsfail_eq (env : Env) (req : UploadRequest) (user : User)
    (cid : UUIDBytes) (course : Course) (instructor : Instructor)
    (h1 : authenticateRequest req.basicAuth env.authUser = .ok user)
    (h2 : parseUUID req.courseIDStr = some cid)
    (h3 : req.formParseOK = true)
    (h4 : req.fileOK = true)
    (h5 : env.getCourseByID cid = .ok course)
    (h6 : env.getInstructorByID course.instructorID = .ok instructor)
    (h7 : uploadToGCS env.bucketName env.gcs req.filePayload
        (deriveCustomName course instructor) = .error ())
    (h8 : env.insertTraceOK = true) :
    HandleTraceUpload env req =
      { response := errResp 500 "Failed to upload file to GCS",
        inserted := [⟨user.id, course.instructorID, "failed", cid,
          (if req.vectorIDField = "" then none else some req.vectorIDField),
          deriveCustomName course instructor, ""⟩],
        uploadAttempts := 1,
        published := [] } := by
  simp only [HandleTraceUpload, h1, h2, h3, h4, h5, h6, h7, h8, if_true]

/-- Course-resolution failure: no side effect, 500. -/
theorem handle_course_err_eq (env : Env) (req : UploadRequest) (user : User)
    (cid : UUIDBytes)
    (h1 : authenticateRequest req.basicAuth env.authUser = .ok user)
    (h2 : parseUUID req.courseIDStr = some cid)
    (h3 : req.formParseOK = true)
    (h4 : req.fileOK = true)
    (h5 : env.getCourseByID cid = .error ()) :
    HandleTraceUpload env req =
      { response := errResp 500 "Failed to fetch course details",
        inserted := [], uploadAttempts := 0, published := [] } := by
  simp only [HandleTraceUpload, h1, h2, h3, h4, h5, if_true]

/-- Instructor-resolution failure: no side effect, 500. -/
theorem handle_instr_err_eq (env : Env) (req : UploadRequest) (user : User)
    (cid : UUIDBytes) (course : Course)
    (h1 : authenticateRequest req.basicAuth env.authUser = .ok user)
    (h2 : parseUUID req.courseIDStr = some cid)
    (h3 : req.formParseOK = true)
    (h4 : req.fileOK = true)
    (h5 : env.getCourseByID cid = .ok course)
    (h6 : env.getInstructorByID course.instructorID = .error ()) :
    HandleTraceUpload env req =
      { response := errResp 500 "Failed to fetch instructor details",
        inserted := [], uploadAttempts := 0, published := [] } := by
  simp only [HandleTraceUpload, h1, h2, h3, h4, h5, h6, if_true]

/-- Insert failure after a successful upload: 500, nothing persisted. -/
theorem handle_insertfail_ok_eq (env : Env) (req : UploadRequest) (user : User)
    (cid : UUIDBytes) (course : Course) (instructor : Instructor) (url : String)
    (h1 : authenticateRequest req.basicAuth env.authUser = .ok user)
    (h2 : parseUUID req.courseIDStr = some cid)
    (h3 : req.formParseOK = true)
    (h4 : req.fileOK = true)
    (h5 : env.getCourseByID cid = .ok course)
    (h6 : env.getInstructorByID course.instructorID = .ok instructor)
    (h7 : uploadToGCS env.bucketName env.gcs req.filePayload
        (deriveCustomName course instructor) = .ok url)
    (h8 : env.insertTraceOK = false) :
    HandleTraceUpload env req =
      { response := errResp 500 "Failed to insert trace record",
        inserted := [], uploadAttempts := 1, published := [] } := by
  simp only [HandleTraceUpload, h1, h2, h3, h4, h5, h6, h7, h8, Bool.false_eq_true,
    if_false, if_true]

/-- Insert failure after a failed upload: 500, nothing persisted. -/
theorem handle_insertfail_fail_eq (env : Env) (req : UploadRequest) (user : User)
    (cid : UUIDBytes) (course : Course) (instructor : Instructor)
    (h1 : authenticateRequest req.basicAuth env.authUser = .ok user)
    (h2 : parseUUID req.courseIDStr = some cid)
    (h3 : req.formParseOK = true)
    (h4 : req.fileOK = true)
    (h5 : env.getCourseByID cid = .ok course)
    (h6 : env.getInstructorByID course.instructorID = .ok instructor)
    (h7 : uploadToGCS env.bucketName env.gcs req.filePayload
        (deriveCustomName course instructor) = .error ())
    (h8 : env.insertTraceOK = false) :
    HandleTraceUpload env req =
      { response := errResp 500 "Failed to insert trace record",
        inserted := [], uploadAttempts := 1, published := [] } := by
  simp only [HandleTraceUpload, h1, h2, h3, h4, h5, h6, h7, h8, Bool.false_eq_true,
    if_false, if_true]

/-- Unparseable course id: 400, no side effect. -/
theorem handle_baduuid_eq (env : Env) (req : UploadRequest) (user : User)
    (h1 : authenticateRequest req.basicAuth env.authUser = .ok user)
    (h2 : parseUUID req.courseIDStr = none) :
    HandleTraceUpload env req =
      { response := errResp 400 "Invalid course_id format",
        inserted := [], uploadAttempts := 0, published := [] } := by
  simp only [HandleTraceUpload, h1, h2]

/-- Multipart-form parse failure: 400, no side effect. -/
theorem handle_noform_eq (env : Env) (req : UploadRequest) (user : User)
    (cid : UUIDBytes)
    (h1 : authenticateRequest req.basicAuth env.authUser = .ok user)
    (h2 : parseUUID req.courseIDStr = some cid)
    (h3 : req.formParseOK = false) :
    HandleTraceUpload env req =
      { response := errResp 400 "Failed to parse multipart form",
        inserted := [], uploadAttempts := 0, published := [] } := by
  simp only [HandleTraceUpload, h1, h2, h3, Bool.false_eq_true, if_false]

/-- Missing `file` field: 400, no side effect. -/
theorem handle_nofile_eq (env : Env) (req : UploadRequest) (user : User)
    (cid : UUIDBytes)
    (h1 : authenticateRequest req.basicAuth env.authUser = .ok user)
    (h2 : parseUUID req.courseIDStr = some cid)
    (h3 : req.formParseOK = true)
    (h4 : req.fileOK = false) :
    HandleTraceUpload env req =
      { response := errResp 400 "File is required",
        inserted := [], uploadAttempts := 0, published := [] } := by
  simp only [HandleTraceUpload, h1, h2, h3, h4, Bool.false_eq_true, if_false, if_true]

/-- Authenticated non-admin caller: 403, no side effect. -/
theorem handle_forbidden_eq (env : Env) (req : UploadRequest)
    (h1 : authenticateRequest req.basicAuth env.authUser = .forbidden) :
    HandleTraceUpload env req =
      { response := ⟨403, [[("error", "Insufficient permissions")],
          [("error", "insufficient permissions")]]⟩,
        inserted := [], uploadAttempts := 0, published := [] } := by
  simp only [HandleTraceUpload, h1]

/-!
Claim theorems.
-/

/-- C1: for every upload request with a valid course id, a payload, and a
failing storage backend (with the trace insert succeeding),
`HandleTraceUpload` persists exactly one Trace row with status "failed"
and empty `bucket_url`, and responds 500 with a JSON error body — not the
201 success body — even though the row was written. -/
theorem c1_failing_storage_records_failed_trace (env : Env) (req : UploadRequest)
    (user : User) (cid : UUIDBytes) (course : Course) (instructor : Instructor)
    (h1 : authenticateRequest req.basicAuth env.authUser = .ok user)
    (h2 : parseUUID req.courseIDStr = some cid)
    (h3 : req.formParseOK = true)
    (h4 : req.fileOK = true)
    (h5 : env.getCourseByID cid = .ok course)
    (h6 : env.getInstructorByID course.instructorID = .ok instructor)
    (h7 : uploadToGCS env.bucketName env.gcs req.filePayload
        (deriveCustomName course instructor) = .error ())
    (h8 : env.insertTraceOK = true) :
    (HandleTraceUpload env req).inserted.length = 1 ∧
    (∀ row ∈ (HandleTraceUpload env req).inserted,
      row.status = "failed" ∧ row.bucketURL = "") ∧
    (HandleTraceUpload env req).response = errResp 500 "Failed to upload file to GCS" := by
  rw [handle_gcsfail_eq env req user cid course instructor h1 h2 h3 h4 h5 h6 h7 h8]
  refine ⟨rfl, ?_, rfl⟩
  intro row hrow
  rw [List.mem_singleton] at hrow
  subst hrow
  exact ⟨rfl, rfl⟩

/-- Witness for C1: a concrete run against a failing backend. -/
theorem c1_failing_storage_records_failed_trace_witness :
    (HandleTraceUpload envGCSFail reqOK).inserted.length = 1 ∧
    trRowFailed.status = "failed" ∧ trRowFailed.bucketURL = "" ∧
    (HandleTraceUpload envGCSFail reqOK).response =
      errResp 500 "Failed to upload file to GCS" := by
  have h := c1_failing_storage_records_failed_trace envGCSFail reqOK userAdmin uuid1
    courseOK instructorOK (by decide) (by decide) rfl rfl (by decide) (by decide)
    (by decide) rfl
  exact ⟨h.1, (h.2.1 trRowFailed (by decide)).1, (h.2.1 trRowFailed (by decide)).2, h.2.2⟩

/-- C3: for every upload request with a valid course id, a payload, and a
storage backend whose write, close and attribute-read succeed (with the
trace insert succeeding), `HandleTraceUpload` persists exactly one Trace
row with status "uploaded" and returns, in a 201 response, the non-empty
location `https://storage.googleapis.com/{bucket}/{object name}`. -/
theorem c3_working_storage_uploads_and_records (env : Env) (req : UploadRequest)
    (user : User) (cid : UUIDBytes) (course : Course) (instructor : Instructor)
    (objName : String)
    (h1 : authenticateRequest req.basicAuth env.authUser = .ok user)
    (h2 : parseUUID req.courseIDStr = some cid)
    (h3 : req.formParseOK = true)
    (h4 : req.fileOK = true)
    (h5 : env.getCourseByID cid = .ok course)
    (h6 : env.getInstructorByID course.instructorID = .ok instructor)
    (hw : env.gcs.copyFails req.filePayload = false)
    (hcl : env.gcs.closeErr = false)
    (ha : env.gcs.attrs (deriveCustomName course instructor) = .ok objName)
    (h8 : env.insertTraceOK = true) :
    (HandleTraceUpload env req).inserted.length = 1 ∧
    (∀ row ∈ (HandleTraceUpload env req).inserted,
      row.status = "uploaded" ∧
      row.bucketURL = "https://storage.googleapis.com/" ++ env.bucketName ++ "/" ++ objName ∧
      row.bucketURL ≠ "") ∧
    (HandleTraceUpload env req).response =
      ⟨201, [[("message", "File uploaded successfully"),
        ("bucket_url", "https://storage.googleapis.com/" ++ env.bucketName ++ "/" ++ objName)]]⟩ := by
  have h7 : uploadToGCS env.bucketName env.gcs req.filePayload
      (deriveCustomName course instructor) =
      .ok ("https://storage.googleapis.com/" ++ env.bucketName ++ "/" ++ objName) := by
    simp [uploadToGCS, hw, hcl, ha]
  rw [handle_success_eq env req user cid course instructor _ h1 h2 h3 h4 h5 h6 h7 h8]
  refine ⟨rfl, ?_, rfl⟩
  intro row hrow
  rw [List.mem_singleton] at hrow
  subst hrow
  exact ⟨rfl, rfl, gcs_url_ne_empty env.bucketName objName⟩

/-- Witness for C3: a concrete run against a working backend. -/
theorem c3_working_storage_uploads_and_records_witness :
    (HandleTraceUpload envOK reqOK).inserted.length = 1 ∧
    trRowUploaded.status = "uploaded" ∧
    trRowUploaded.bucketURL =
      "https://storage.googleapis.com/" ++ envOK.bucketName ++ "/" ++ fileNameOK ∧
    trRowUploaded.bucketURL ≠ "" ∧
    (HandleTraceUpload envOK reqOK).response =
      ⟨201, [[("message", "File uploaded successfully"),
        ("bucket_url", "https://storage.googleapis.com/" ++ envOK.bucketName ++ "/" ++
          fileNameOK)]]⟩ := by
  have h := c3_working_storage_uploads_and_records envOK reqOK userAdmin uuid1
    courseOK instructorOK fileNameOK (by decide) (by decide) rfl rfl (by decide)
    (by decide) rfl rfl (by decide) rfl
  have hm := h.2.1 trRowUploaded (by decide)
  exact ⟨h.1, hm.1, hm.2.1, hm.2.2, h.2.2⟩

/-- C4: for every upload request whose course id parses as a UUID but does
not resolve to an existing course, `HandleTraceUpload` inserts no Trace
row, attempts no storage upload, and responds 500 — not 404. -/
theorem c4_unknown_course_no_side_effects (env : Env) (req : UploadRequest)
    (user : User) (cid : UUIDBytes)
    (h1 : authenticateRequest req.basicAuth env.authUser = .ok user)
    (h2 : parseUUID req.courseIDStr = some cid)
    (h3 : req.formParseOK = true)
    (h4 : req.fileOK = true)
    (h5 : env.getCourseByID cid = .error ()) :
    (HandleTraceUpload env req).inserted = [] ∧
    (HandleTraceUpload env req).uploadAttempts = 0 ∧
    (HandleTraceUpload env req).response.status = 500 ∧
    (HandleTraceUpload env req).response.status ≠ 404 := by
  rw [handle_course_err_eq env req user cid h1 h2 h3 h4 h5]
  exact ⟨rfl, rfl, rfl, by decide⟩

/-- Witness for C4: a concrete run where the course id resolves to nothing. -/
theorem c4_unknown_course_no_side_effects_witness :
    (HandleTraceUpload envNoCourse reqOK).inserted = [] ∧
    (HandleTraceUpload envNoCourse reqOK).uploadAttempts = 0 ∧
    (HandleTraceUpload envNoCourse reqOK).response.status = 500 ∧
    (HandleTraceUpload envNoCourse reqOK).response.status ≠ 404 :=
  c4_unknown_course_no_side_effects envNoCourse reqOK userAdmin uuid1
    (by decide) (by decide) rfl rfl rfl

/-- C5: the filename deriver produces exactly the template
`{sanitized course name}_{sanitized instructor name}_{subject_code}_{course_number}_{semester_term}_{semester_year}.pdf`,
sanitization (applied only to the two names, other fields verbatim)
replaces every maximal run of non-ASCII-alphanumeric characters with one
underscore and strips leading/trailing underscores, and an input of only
non-alphanumeric characters sanitizes to the empty string. -/
theorem c5_filename_template_and_sanitization :
    (∀ course instructor, deriveCustomName course instructor =
      sanitizeFilename course.name ++ "_" ++ sanitizeFilename instructor.name ++ "_" ++
      course.subjectCode ++ "_" ++ intDec course.courseID ++ "_" ++
      course.semesterTerm ++ "_" ++ intDec course.semesterYear ++ ".pdf") ∧
    (∀ s, sanitizeFilename s = sanitizeSpec s) ∧
    (∀ s, (∀ c ∈ s.data, isAlnumChar c = false) → sanitizeFilename s = "") := by
  refine ⟨fun course instructor => rfl, sanitizeFilename_eq_spec, ?_⟩
  intro s h
  rw [sanitizeFilename_eq_spec s]
  unfold sanitizeSpec
  rw [alnumBlocks_nil s.data h]
  rfl

/-- Witness for C5 at concrete strings. -/
theorem c5_filename_template_and_sanitization_witness :
    sanitizeFilename "--- !!" = "" ∧ sanitizeFilename "a b!c" = sanitizeSpec "a b!c" :=
  ⟨c5_filename_template_and_sanitization.2.2 "--- !!" (by decide),
   c5_filename_template_and_sanitization.2.1 "a b!c"⟩

/-- C6 as stated is false: the subject code is inserted verbatim
(course.go:330), so a subject code containing `!` puts a character outside
`[A-Za-z0-9_.]` into the derived filename. -/
theorem c6_counterexample :
    '!' ∈ (deriveCustomName courseBad instructorOK).data ∧ allowedChar '!' = false := by
  decide

/-- C6 (amended): filename derivation is deterministic — the persisted
filename depends only on the resolved course and instructor, never on the
upload content — and the output contains no characters outside
`[A-Za-z0-9_.]` provided the verbatim-inserted subject code and semester
term themselves use only such characters and the course number and
semester year are nonnegative. -/
theorem c6_amended_deterministic_charset :
    (∀ (env : Env) (req : UploadRequest) (p1 p2 : String),
      (HandleTraceUpload env { req with filePayload := p1 }).inserted.map TraceRow.fileName =
      (HandleTraceUpload env { req with filePayload := p2 }).inserted.map TraceRow.fileName) ∧
    (∀ (course : Course) (instructor : Instructor),
      (∀ c ∈ course.subjectCode.data, allowedChar c = true) →
      (∀ c ∈ course.semesterTerm.data, allowedChar c = true) →
      0 ≤ course.courseID → 0 ≤ course.semesterYear →
      ∀ c ∈ (deriveCustomName course instructor).data, allowedChar c = true) := by
  constructor
  · intro env req p1 p2
    cases hA : authenticateRequest req.basicAuth env.authUser with
    | unauthorized msg => simp [HandleTraceUpload, hA]
    | forbidden => simp [HandleTraceUpload, hA]
    | ok user =>
      cases hP : parseUUID req.courseIDStr with
      | none => simp [HandleTraceUpload, hA, hP]
      | some cid =>
        by_cases hF : req.formParseOK = true
        · by_cases hFile : req.fileOK = true
          · cases hC : env.getCourseByID cid with
            | error e => simp [HandleTraceUpload, hA, hP, hF, hFile, hC]
            | ok course =>
              cases hI : env.getInstructorByID course.instructorID with
              | error e => simp [HandleTraceUpload, hA, hP, hF, hFile, hC, hI]
              | ok instructor =>
                by_cases hT : env.insertTraceOK = true
                · cases hU1 : uploadToGCS env.bucketName env.gcs p1
                      (deriveCustomName course instructor) with
                  | error e =>
                    cases hU2 : uploadToGCS env.bucketName env.gcs p2
                        (deriveCustomName course instructor) with
                    | error e2 =>
                      simp [HandleTraceUpload, hA, hP, hF, hFile, hC, hI, hT, hU1, hU2]
                    | ok u2 =>
                      simp [HandleTraceUpload, hA, hP, hF, hFile, hC, hI, hT, hU1, hU2]
                  | ok u1 =>
                    cases hU2 : uploadToGCS env.bucketName env.gcs p2
                        (deriveCustomName course instructor) with
                    | error e2 =>
                      simp [HandleTraceUpload, hA, hP, hF, hFile, hC, hI, hT, hU1, hU2]
                    | ok u2 =>
                      simp [HandleTraceUpload, hA, hP, hF, hFile, hC, hI, hT, hU1, hU2]
                · cases hU1 : uploadToGCS env.bucketName env.gcs p1
                      (deriveCustomName course instructor) with
                  | error e =>
                    cases hU2 : uploadToGCS env.bucketName env.gcs p2
                        (deriveCustomName course instructor) with
                    | error e2 =>
                      simp [HandleTraceUpload, hA, hP, hF, hFile, hC, hI, hT, hU1, hU2]
                    | ok u2 =>
                      simp [HandleTraceUpload, hA, hP, hF, hFile, hC, hI, hT, hU1, hU2]
                  | ok u1 =>
                    cases hU2 : uploadToGCS env.bucketName env.gcs p2
                        (deriveCustomName course instructor) with
                    | error e2 =>
                      simp [HandleTraceUpload, hA, hP, hF, hFile, hC, hI, hT, hU1, hU2]
                    | ok u2 =>
                      simp [HandleTraceUpload, hA, hP, hF, hFile, hC, hI, hT, hU1, hU2]
          · simp [HandleTraceUpload, hA, hP, hF, hFile]
        · simp [HandleTraceUpload, hA, hP, hF]
  · intro course instructor hsub hterm hcid hyear
    have hund : ∀ c ∈ ("_" : String).data, allowedChar c = true := by decide
    have hpdf : ∀ c ∈ (".pdf" : String).data, allowedChar c = true := by decide
    have hsan1 : ∀ c ∈ (sanitizeFilename course.name).data, allowedChar c = true :=
      fun c h => sanitizeFilename_mem _ c h
    have hsan2 : ∀ c ∈ (sanitizeFilename instructor.name).data, allowedChar c = true :=
      fun c h => sanitizeFilename_mem _ c h
    have hnum1 : ∀ c ∈ (intDec course.courseID).data, allowedChar c = true := by
      intro c h
      have hd := intDec_mem course.courseID hcid c h
      simp [allowedChar, Char.isAlphanum, hd]
    have hnum2 : ∀ c ∈ (intDec course.semesterYear).data, allowedChar c = true := by
      intro c h
      have hd := intDec_mem course.semesterYear hyear c h
      simp [allowedChar, Char.isAlphanum, hd]
    have step : ∀ (s t : String), (∀ c ∈ s.data, allowedChar c = true) →
        (∀ c ∈ t.data, allowedChar c = true) →
        ∀ c ∈ (s ++ t).data, allowedChar c = true := by
      intro s t hs ht c hc
      rw [String.data_append] at hc
      rcases List.mem_append.mp hc with h | h
      · exact hs c h
      · exact ht c h
    exact step _ _ (step _ _ (step _ _ (step _ _ (step _ _ (step _ _ (step _ _ (step _ _
      (step _ _ (step _ _ (step _ _ hsan1 hund) hsan2) hund) hsub) hund) hnum1) hund)
      hterm) hund) hnum2) hpdf

/-- Witness for C6 (amended) at concrete inputs. -/
theorem c6_amended_deterministic_charset_witness :
    (HandleTraceUpload envOK { reqOK with filePayload := "aaa" }).inserted.map
        TraceRow.fileName =
      (HandleTraceUpload envOK { reqOK with filePayload := "bbb" }).inserted.map
        TraceRow.fileName ∧
    allowedChar 'C' = true :=
  ⟨c6_amended_deterministic_charset.1 envOK reqOK "aaa" "bbb",
   c6_amended_deterministic_charset.2 courseOK instructorOK (by decide) (by decide)
     (by decide) (by decide) 'C' (by decide)⟩

/-- C7 as stated is false: on a concrete success-path run the published
message's `bucket_path` value is the storage location verbatim
(course.go:370) and contains uppercase characters, so not every value is
lower-cased. -/
theorem c7_counterexample :
    (HandleTraceUpload envOK reqOK).published =
      [("pdf-upload", traceMessage instructorOK courseOK gcsURL)] ∧
    ("bucket_path", gcsURL) ∈ traceMessage instructorOK courseOK gcsURL ∧
    toLowerGo gcsURL ≠ gcsURL := by
  decide

/-- C7 (amended): on every success-path run the notification published to
the fixed topic "pdf-upload" is a JSON object with exactly the keys
`instructor_name`, `course_code` (subject code, space, course number),
`semester_term`, `semester_year`, `course_name`, `credit_hours` and
`bucket_path`; every value except `bucket_path` is lower-cased, while
`bucket_path` carries the storage location verbatim. -/
theorem c7_amended_message_shape (env : Env) (req : UploadRequest) (user : User)
    (cid : UUIDBytes) (course : Course) (instructor : Instructor) (url : String)
    (h1 : authenticateRequest req.basicAuth env.authUser = .ok user)
    (h2 : parseUUID req.courseIDStr = some cid)
    (h3 : req.formParseOK = true)
    (h4 : req.fileOK = true)
    (h5 : env.getCourseByID cid = .ok course)
    (h6 : env.getInstructorByID course.instructorID = .ok instructor)
    (h7 : uploadToGCS env.bucketName env.gcs req.filePayload
        (deriveCustomName course instructor) = .ok url)
    (h8 : env.insertTraceOK = true)
    (hm : env.marshalOK = true) :
    (HandleTraceUpload env req).published =
      [("pdf-upload",
        [("instructor_name", toLowerGo instructor.name),
         ("course_code", toLowerGo (course.subjectCode ++ " " ++ intDec course.courseID)),
         ("semester_term", toLowerGo course.semesterTerm),
         ("semester_year", toLowerGo (intDec course.semesterYear)),
         ("course_name", toLowerGo course.name),
         ("credit_hours", toLowerGo (intDec course.creditHours)),
         ("bucket_path", url)])] := by
  rw [handle_success_eq env req user cid course instructor url h1 h2 h3 h4 h5 h6 h7 h8]
  simp [hm, traceMessage]

/-- Witness for C7 (amended) at the concrete success run. -/
theorem c7_amended_message_shape_witness :
    (HandleTraceUpload envOK reqOK).published =
      [("pdf-upload",
        [("instructor_name", toLowerGo instructorOK.name),
         ("course_code", toLowerGo (courseOK.subjectCode ++ " " ++ intDec courseOK.courseID)),
         ("semester_term", toLowerGo courseOK.semesterTerm),
         ("semester_year", toLowerGo (intDec courseOK.semesterYear)),
         ("course_name", toLowerGo courseOK.name),
         ("credit_hours", toLowerGo (intDec courseOK.creditHours)),
         ("bucket_path", gcsURL)])] :=
  c7_amended_message_shape envOK reqOK userAdmin uuid1 courseOK instructorOK gcsURL
    (by decide) (by decide) rfl rfl (by decide) (by decide) (by decide) rfl rfl

/-- C8: a failure of the notification publish, or of serializing the
notification message, never changes the caller-visible result — the
response and the persisted rows are independent of both flags — and on the
success path the endpoint still answers 201 with the success body when the
publisher always errors. -/
theorem c8_publish_failure_invisible :
    (∀ (env : Env) (req : UploadRequest) (m1 m2 p1 p2 : Bool),
      (HandleTraceUpload { env with marshalOK := m1, publishOK := p1 } req).response =
        (HandleTraceUpload { env with marshalOK := m2, publishOK := p2 } req).response ∧
      (HandleTraceUpload { env with marshalOK := m1, publishOK := p1 } req).inserted =
        (HandleTraceUpload { env with marshalOK := m2, publishOK := p2 } req).inserted) ∧
    (∀ (env : Env) (req : UploadRequest) (user : User) (cid : UUIDBytes)
        (course : Course) (instructor : Instructor) (url : String),
      authenticateRequest req.basicAuth env.authUser = .ok user →
      parseUUID req.courseIDStr = some cid →
      req.formParseOK = true → req.fileOK = true →
      env.getCourseByID cid = .ok course →
      env.getInstructorByID course.instructorID = .ok instructor →
      uploadToGCS env.bucketName env.gcs req.filePayload
        (deriveCustomName course instructor) = .ok url →
      env.insertTraceOK = true →
      env.publishOK = false →
      (HandleTraceUpload env req).response =
        ⟨201, [[("message", "File uploaded successfully"), ("bucket_url", url)]]⟩) := by
  constructor
  · intro env req m1 m2 p1 p2
    cases hA : authenticateRequest req.basicAuth env.authUser with
    | unauthorized msg => simp [HandleTraceUpload, hA]
    | forbidden => simp [HandleTraceUpload, hA]
    | ok user =>
      cases hP : parseUUID req.courseIDStr with
      | none => simp [HandleTraceUpload, hA, hP]
      | some cid =>
        by_cases hF : req.formParseOK = true
        · by_cases hFile : req.fileOK = true
          · cases hC : env.getCourseByID cid with
            | error e => simp [HandleTraceUpload, hA, hP, hF, hFile, hC]
            | ok course =>
              cases hI : env.getInstructorByID course.instructorID with
              | error e => simp [HandleTraceUpload, hA, hP, hF, hFile, hC, hI]
              | ok instructor =>
                by_cases hT : env.insertTraceOK = true
                · cases hU : uploadToGCS env.bucketName env.gcs req.filePayload
                      (deriveCustomName course instructor) with
                  | error e =>
                    simp [HandleTraceUpload, hA, hP, hF, hFile, hC, hI, hT, hU]
                  | ok url =>
                    simp [HandleTraceUpload, hA, hP, hF, hFile, hC, hI, hT, hU]
                · cases hU : uploadToGCS env.bucketName env.gcs req.filePayload
                      (deriveCustomName course instructor) with
                  | error e =>
                    simp [HandleTraceUpload, hA, hP, hF, hFile, hC, hI, hT, hU]
                  | ok url =>
                    simp [HandleTraceUpload, hA, hP, hF, hFile, hC, hI, hT, hU]
          · simp [HandleTraceUpload, hA, hP, hF, hFile]
        · simp [HandleTraceUpload, hA, hP, hF]
  · intro env req user cid course instructor url h1 h2 h3 h4 h5 h6 h7 h8 hp
    rw [handle_success_eq env req user cid course instructor url h1 h2 h3 h4 h5 h6 h7 h8]

/-- Witness for C8 with a concrete always-failing publisher. -/
theorem c8_publish_failure_invisible_witness :
    (HandleTraceUpload envPubFail reqOK).response =
      ⟨201, [[("message", "File uploaded successfully"), ("bucket_url", gcsURL)]]⟩ :=
  c8_publish_failure_invisible.2 envPubFail reqOK userAdmin uuid1 courseOK
    instructorOK gcsURL (by decide) (by decide) rfl rfl (by decide) (by decide)
    (by decide) rfl rfl

/-- C9 as stated is false: with valid credentials of a non-admin user the
handler rejects the upload with 403 (course.go:68-72 runs for every
`CourseHandler` endpoint, `HandleTraceUpload` included). -/
theorem c9_counterexample :
    (HandleTraceUpload envNonAdmin reqOK).response.status = 403 := by
  decide

/-- C9 (amended): the trace-upload endpoint is restricted to admins — for
every request with valid credentials of a non-admin user the handler
rejects with 403 on account of the role and performs no upload and no
insert. -/
theorem c9_amended_admin_required (env : Env) (req : UploadRequest)
    (u p : String) (user : User)
    (hba : req.basicAuth = some (u, p))
    (hauth : env.authUser u p = .ok user)
    (hrole : user.role ≠ "admin") :
    (HandleTraceUpload env req).response.status = 403 ∧
    (HandleTraceUpload env req).inserted = [] ∧
    (HandleTraceUpload env req).uploadAttempts = 0 := by
  have h1 : authenticateRequest req.basicAuth env.authUser = .forbidden := by
    rw [hba]
    simp [authenticateRequest, hauth, hrole]
  rw [handle_forbidden_eq env req h1]
  exact ⟨rfl, rfl, rfl⟩

/-- Witness for C9 (amended) at the concrete non-admin environment. -/
theorem c9_amended_admin_required_witness :
    (HandleTraceUpload envNonAdmin reqOK).response.status = 403 ∧
    (HandleTraceUpload envNonAdmin reqOK).inserted = [] ∧
    (HandleTraceUpload envNonAdmin reqOK).uploadAttempts = 0 :=
  c9_amended_admin_required envNonAdmin reqOK "alice" "pw" userPlain rfl
    (by decide) (by decide)

/-- Every row `HandleTraceUpload` persists carries the vector id the
handler computed from the `vector_id` form value: `none` when the value is
the empty string, the value itself otherwise. -/
theorem inserted_vectorID (env : Env) (req : UploadRequest) :
    ∀ row ∈ (HandleTraceUpload env req).inserted,
      row.vectorID = if req.vectorIDField = "" then none else some req.vectorIDField := by
  intro row hrow
  cases hA : authenticateRequest req.basicAuth env.authUser with
  | unauthorized msg => simp [HandleTraceUpload, hA] at hrow
  | forbidden => simp [HandleTraceUpload, hA] at hrow
  | ok user =>
    cases hP : parseUUID req.courseIDStr with
    | none => simp [HandleTraceUpload, hA, hP] at hrow
    | some cid =>
      by_cases hF : req.formParseOK = true
      · by_cases hFile : req.fileOK = true
        · cases hC : env.getCourseByID cid with
          | error e => simp [HandleTraceUpload, hA, hP, hF, hFile, hC] at hrow
          | ok course =>
            cases hI : env.getInstructorByID course.instructorID with
            | error e => simp [HandleTraceUpload, hA, hP, hF, hFile, hC, hI] at hrow
            | ok instructor =>
              by_cases hT : env.insertTraceOK = true
              · cases hU : uploadToGCS env.bucketName env.gcs req.filePayload
                    (deriveCustomName course instructor) with
                | error e =>
                  simp [HandleTraceUpload, hA, hP, hF, hFile, hC, hI, hT, hU] at hrow
                  subst hrow
                  rfl
                | ok url =>
                  simp [HandleTraceUpload, hA, hP, hF, hFile, hC, hI, hT, hU] at hrow
                  subst hrow
                  rfl
              · cases hU : uploadToGCS env.bucketName env.gcs req.filePayload
                    (deriveCustomName course instructor) with
                | error e =>
                  simp [HandleTraceUpload, hA, hP, hF, hFile, hC, hI, hT, hU] at hrow
                | ok url =>
                  simp [HandleTraceUpload, hA, hP, hF, hFile, hC, hI, hT, hU] at hrow
        · simp [HandleTraceUpload, hA, hP, hF, hFile] at hrow
      · simp [HandleTraceUpload, hA, hP, hF] at hrow

/-- C10: a `vector_id` form value equal to the empty string is treated as
absent — every persisted row then has a nil vector id — and only a
non-empty value is persisted, as given. -/
theorem c10_empty_vector_id_is_null (env : Env) (req : UploadRequest) :
    (req.vectorIDField = "" →
      ∀ row ∈ (HandleTraceUpload env req).inserted, row.vectorID = none) ∧
    (req.vectorIDField ≠ "" →
      ∀ row ∈ (HandleTraceUpload env req).inserted,
        row.vectorID = some req.vectorIDField) := by
  constructor
  · intro hv row hrow
    rw [inserted_vectorID env req row hrow, if_pos hv]
  · intro hv row hrow
    rw [inserted_vectorID env req row hrow, if_neg hv]

/-- Witness for C10: concrete rows for an empty and a non-empty
`vector_id`. -/
theorem c10_empty_vector_id_is_null_witness :
    trRowUploaded.vectorID = none ∧
    reqVec.vectorIDField ≠ "" ∧
    ({ trRowUploaded with vectorID := some "vec-1" } : TraceRow).vectorID = some "vec-1" :=
  ⟨(c10_empty_vector_id_is_null envOK reqOK).1 rfl trRowUploaded (by decide),
   by decide,
   (c10_empty_vector_id_is_null envOK reqVec).2 (by decide)
     { trRowUploaded with vectorID := some "vec-1" } (by decide)⟩

/-- C2 as stated is false: on the upload-failure-but-recorded branch a row
is written but the response is 500 with an error body, not 201
(course.go:349-351). -/
theorem c2_counterexample :
    (HandleTraceUpload envGCSFail reqOK).inserted.length = 1 ∧
    (HandleTraceUpload envGCSFail reqOK).response.status = 500 ∧
    (HandleTraceUpload envGCSFail reqOK).response.status ≠ 201 := by
  decide

/-- C2 (amended): the endpoint answers 201 with `message` and `bucket_url`
only on the upload-success branch; the upload-failure-but-recorded branch
answers 500 with an error body even though the row was written; any
entity-resolution or persistence failure answers 500 with an error body;
malformed input (unparseable course id, bad form, missing file) answers
400. -/
theorem c2_amended_status_mapping :
    (∀ (env : Env) (req : UploadRequest) (user : User) (cid : UUIDBytes)
        (course : Course) (instructor : Instructor) (url : String),
      authenticateRequest req.basicAuth env.authUser = .ok user →
      parseUUID req.courseIDStr = some cid →
      req.formParseOK = true → req.fileOK = true →
      env.getCourseByID cid = .ok course →
      env.getInstructorByID course.instructorID = .ok instructor →
      uploadToGCS env.bucketName env.gcs req.filePayload
        (deriveCustomName course instructor) = .ok url →
      env.insertTraceOK = true →
      (HandleTraceUpload env req).response =
        ⟨201, [[("message", "File uploaded successfully"), ("bucket_url", url)]]⟩) ∧
    (∀ (env : Env) (req : UploadRequest) (user : User) (cid : UUIDBytes)
        (course : Course) (instructor : Instructor),
      authenticateRequest req.basicAuth env.authUser = .ok user →
      parseUUID req.courseIDStr = some cid →
      req.formParseOK = true → req.fileOK = true →
      env.getCourseByID cid = .ok course →
      env.getInstructorByID course.instructorID = .ok instructor →
      uploadToGCS env.bucketName env.gcs req.filePayload
        (deriveCustomName course instructor) = .error () →
      env.insertTraceOK = true →
      (HandleTraceUpload env req).response = errResp 500 "Failed to upload file to GCS" ∧
      (HandleTraceUpload env req).inserted ≠ []) ∧
    (∀ (env : Env) (req : UploadRequest) (user : User) (cid : UUIDBytes),
      authenticateRequest req.basicAuth env.authUser = .ok user →
      parseUUID req.courseIDStr = some cid →
      req.formParseOK = true → req.fileOK = true →
      env.getCourseByID cid = .error () →
      (HandleTraceUpload env req).response = errResp 500 "Failed to fetch course details") ∧
    (∀ (env : Env) (req : UploadRequest) (user : User) (cid : UUIDBytes) (course : Course),
      authenticateRequest req.basicAuth env.authUser = .ok user →
      parseUUID req.courseIDStr = some cid →
      req.formParseOK = true → req.fileOK = true →
      env.getCourseByID cid = .ok course →
      env.getInstructorByID course.instructorID = .error () →
      (HandleTraceUpload env req).response =
        errResp 500 "Failed to fetch instructor details") ∧
    (∀ (env : Env) (req : UploadRequest) (user : User) (cid : UUIDBytes)
        (course : Course) (instructor : Instructor) (url : String),
      authenticateRequest req.basicAuth env.authUser = .ok user →
      parseUUID req.courseIDStr = some cid →
      req.formParseOK = true → req.fileOK = true →
      env.getCourseByID cid = .ok course →
      env.getInstructorByID course.instructorID = .ok instructor →
      uploadToGCS env.bucketName env.gcs req.filePayload
        (deriveCustomName course instructor) = .ok url →
      env.insertTraceOK = false →
      (HandleTraceUpload env req).response = errResp 500 "Failed to insert trace record") ∧
    (∀ (env : Env) (req : UploadRequest) (user : User) (cid : UUIDBytes)
        (course : Course) (instructor : Instructor),
      authenticateRequest req.basicAuth env.authUser = .ok user →
      parseUUID req.courseIDStr = some cid →
      req.formParseOK = true → req.fileOK = true →
      env.getCourseByID cid = .ok course →
      env.getInstructorByID course.instructorID = .ok instructor →
      uploadToGCS env.bucketName env.gcs req.filePayload
        (deriveCustomName course instructor) = .error () →
      env.insertTraceOK = false →
      (HandleTraceUpload env req).response = errResp 500 "Failed to insert trace record") ∧
    (∀ (env : Env) (req : UploadRequest) (user : User),
      authenticateRequest req.basicAuth env.authUser = .ok user →
      parseUUID req.courseIDStr = none →
      (HandleTraceUpload env req).response = errResp 400 "Invalid course_id format") ∧
    (∀ (env : Env) (req : UploadRequest) (user : User) (cid : UUIDBytes),
      authenticateRequest req.basicAuth env.authUser = .ok user →
      parseUUID req.courseIDStr = some cid →
      req.formParseOK = false →
      (HandleTraceUpload env req).response = errResp 400 "Failed to parse multipart form") ∧
    (∀ (env : Env) (req : UploadRequest) (user : User) (cid : UUIDBytes),
      authenticateRequest req.basicAuth env.authUser = .ok user →
      parseUUID req.courseIDStr = some cid →
      req.formParseOK = true → req.fileOK = false →
      (HandleTraceUpload env req).response = errResp 400 "File is required") := by
  refine ⟨?_, ?_, ?_, ?_, ?_, ?_, ?_, ?_, ?_⟩
  · intro env req user cid course instructor url h1 h2 h3 h4 h5 h6 h7 h8
    rw [handle_success_eq env req user cid course instructor url h1 h2 h3 h4 h5 h6 h7 h8]
  · intro env req user cid course instructor h1 h2 h3 h4 h5 h6 h7 h8
    rw [handle_gcsfail_eq env req user cid course instructor h1 h2 h3 h4 h5 h6 h7 h8]
    exact ⟨rfl, by simp⟩
  · intro env req user cid h1 h2 h3 h4 h5
    rw [handle_course_err_eq env req user cid h1 h2 h3 h4 h5]
  · intro env req user cid course h1 h2 h3 h4 h5 h6
    rw [handle_instr_err_eq env req user cid course h1 h2 h3 h4 h5 h6]
  · intro env req user cid course instructor url h1 h2 h3 h4 h5 h6 h7 h8
    rw [handle_insertfail_ok_eq env req user cid course instructor url h1 h2 h3 h4 h5 h6 h7 h8]
  · intro env req user cid course instructor h1 h2 h3 h4 h5 h6 h7 h8
    rw [handle_insertfail_fail_eq env req user cid course instructor h1 h2 h3 h4 h5 h6 h7 h8]
  · intro env req user h1 h2
    rw [handle_baduuid_eq env req user h1 h2]
  · intro env req user cid h1 h2 h3
    rw [handle_noform_eq env req user cid h1 h2 h3]
  · intro env req user cid h1 h2 h3 h4
    rw [handle_nofile_eq env req user cid h1 h2 h3 h4]

/-- Witness for C2 (amended): a concrete 201 success and a concrete 400
for an unparseable course id. -/
theorem c2_amended_status_mapping_witness :
    (HandleTraceUpload envOK reqOK).response =
      ⟨201, [[("message", "File uploaded successfully"), ("bucket_url", gcsURL)]]⟩ ∧
    (HandleTraceUpload envOK reqBadID).response = errResp 400 "Invalid course_id format" :=
  ⟨c2_amended_status_mapping.1 envOK reqOK userAdmin uuid1 courseOK instructorOK gcsURL
      (by decide) (by decide) rfl rfl (by decide) (by decide) (by decide) rfl,
   c2_amended_status_mapping.2.2.2.2.2.2.1 envOK reqBadID userAdmin
      (by decide) (by decide)⟩
